import Mathlib

/-!
Verification development for the FreeRTOS four-task control program
(`src/main.c`): a color-cycling LED task, an intermittent buzzer task,
a button-polling control task that toggles the run-state of the first
two via `vTaskSuspend`/`vTaskResume`, and an OLED status task that
waits for the task handles and then periodically renders both tasks'
run-state.

The embedding models each task's loop body as a pure step function on
an explicit state, with hardware effects (GPIO writes, PWM levels,
display calls, scheduler commands) reified as data.
-/

set_option autoImplicit false

namespace FreeRtosTasks

/- ============================================================
   Indicator (LED) task: `led_task`, src/main.c lines 190-214.

   `LED_PINS` has NUM_COLORS = 3 entries; `current_color_index`
   starts at 0; all pins are driven low before the loop; each
   iteration turns off the current pin, advances the index modulo
   NUM_COLORS, turns the new pin on, then delays 500 ms.
   ============================================================ -/

def NUM_COLORS : Nat := 3

/-- State of `led_task`: `current_color_index` plus the digital level of
the three LED output channels (index 0 = red pin 13, 1 = green pin 11,
2 = blue pin 12), as driven by `gpio_put`. -/
structure LedState where
  current_color_index : Nat
  pins : List Bool
deriving DecidableEq, Repr

/-- State of `led_task` at the top of its `while` loop: the init code has
driven every channel low and `current_color_index` is 0. -/
def ledInit : LedState :=
  { current_color_index := 0, pins := [false, false, false] }

/-- One iteration of the `while (true)` body of `led_task`:
`gpio_put(LED_PINS[current_color_index], 0)`, then
`current_color_index = (current_color_index + 1) % NUM_COLORS`, then
`gpio_put(LED_PINS[current_color_index], 1)`. -/
def ledStep (s : LedState) : LedState :=
  let pins1 := s.pins.set s.current_color_index false
  let idx1 := (s.current_color_index + 1) % NUM_COLORS
  { current_color_index := idx1, pins := pins1.set idx1 true }

/-- The LED state after `k` iterations of the loop body. -/
def ledIter (k : Nat) : LedState := ledStep^[k] ledInit

/-- Pin vector with exactly channel `i` on. -/
def onlyChannel (i : Nat) : List Bool :=
  (List.replicate NUM_COLORS false).set i true

/-- Number of channels currently driven high. -/
def activeCount (s : LedState) : Nat := s.pins.count true

/- ============================================================
   Pulse (buzzer) task: `buzzer_task`, src/main.c lines 228-239.

   Each iteration: `pwm_set_gpio_level(BUZZER_A_PIN, 2048)`,
   delay 100 ms, `pwm_set_gpio_level(BUZZER_A_PIN, 0)`,
   delay 900 ms.
   ============================================================ -/

def BUZZER_ON_MS : Nat := 100
def BUZZER_OFF_MS : Nat := 900
def BUZZER_ACTIVE_LEVEL : Nat := 2048

/-- The two phases of one `buzzer_task` loop iteration, as
(PWM level, duration in ms) pairs, in program order. -/
def buzzerPhases : List (Nat × Nat) :=
  [(BUZZER_ACTIVE_LEVEL, BUZZER_ON_MS), (0, BUZZER_OFF_MS)]

/-- Duration of one full on/off cycle of the buzzer in ms. -/
def buzzerPeriodMs : Nat := (buzzerPhases.map Prod.snd).sum

/-- PWM level within one pass over a phase list, `t` ms into it. -/
def phaseLevelAt : List (Nat × Nat) → Nat → Nat
  | [], _ => 0
  | (lvl, dur) :: rest, t => if t < dur then lvl else phaseLevelAt rest (t - dur)

/-- Buzzer PWM level `t` ms after `buzzer_task` enters its loop. -/
def buzzerLevelAt (t : Nat) : Nat :=
  phaseLevelAt buzzerPhases (t % buzzerPeriodMs)

/-- Number of complete on/off cycles finished `t` ms after the task
enters its loop. -/
def buzzerCompletedCycles (t : Nat) : Nat := t / buzzerPeriodMs

def LED_PERIOD_MS : Nat := 500

/-- Number of complete 500 ms indicator periods (index advances)
finished `t` ms after `led_task` enters its loop. -/
def ledStepsCompleted (t : Nat) : Nat := t / LED_PERIOD_MS

/- ============================================================
   Task creation: `main`, src/main.c lines 83-86.

   xTaskCreate(led_task,   "LED_Task",    256, NULL, 1, &xLedTaskHandle)
   xTaskCreate(buzzer_task,"Buzzer_Task", 256, NULL, 1, &xBuzzerTaskHandle)
   xTaskCreate(button_task,"Button_Task", 256, NULL, 2, NULL)
   xTaskCreate(oled_task,  "OLED_Task",   256, NULL, 1, &xOledTaskHandle)
   ============================================================ -/

/-- One `xTaskCreate` call's name, stack depth and priority arguments. -/
structure TaskSpec where
  taskName : String
  stackWords : Nat
  priority : Nat
deriving DecidableEq, Repr

def ledTaskSpec : TaskSpec := ⟨"LED_Task", 256, 1⟩
def buzzerTaskSpec : TaskSpec := ⟨"Buzzer_Task", 256, 1⟩
def buttonTaskSpec : TaskSpec := ⟨"Button_Task", 256, 2⟩
def oledTaskSpec : TaskSpec := ⟨"OLED_Task", 256, 1⟩

/-- The three tasks other than the Control (button) task. -/
def otherTaskSpecs : List TaskSpec := [ledTaskSpec, buzzerTaskSpec, oledTaskSpec]

/- ============================================================
   Control (button) task: `button_task`, src/main.c lines 256-319.

   Local state: `button_a_pressed_previously`,
   `button_b_pressed_previously`, `led_task_suspended`,
   `buzzer_task_suspended`, all initialized to false.  Each 100 ms
   iteration reads both GPIO pins (active low: pressed = !gpio_get),
   and on a rising edge (pressed now, not pressed previously) issues
   `vTaskResume`/`vTaskSuspend` on the corresponding global handle —
   with no NULL check on the handle — and flips the local flag.
   ============================================================ -/

/-- The local state of `button_task` across loop iterations. -/
structure ButtonState where
  prevA : Bool
  prevB : Bool
  ledSusp : Bool
  buzzSusp : Bool
deriving DecidableEq, Repr, Fintype

/-- `button_task`'s locals right before its `while (true)` loop:
all four variables are initialized to `false`. -/
def buttonInit : ButtonState :=
  { prevA := false, prevB := false, ledSusp := false, buzzSusp := false }

/-- A scheduler call issued by `button_task`; the argument is the value
of the global `TaskHandle_t` at the call (`none` models `NULL`). -/
inductive SchedCmd where
  | suspendCmd (h : Option Nat)
  | resumeCmd (h : Option Nat)
deriving DecidableEq, Repr

/-- One iteration of the `while (true)` body of `button_task`, given the
current values of the global handles `xLedTaskHandle` / `xBuzzerTaskHandle`
and the two raw GPIO samples (`gpio_get`; the buttons are active low).
Returns the updated locals and the scheduler calls issued, in program
order.  Mirrors src/main.c lines 273-318: the handle is passed to
`vTaskSuspend`/`vTaskResume` unconditionally, NULL or not. -/
def buttonPoll (ledH buzzH : Option Nat) (s : ButtonState) (gpioA gpioB : Bool) :
    ButtonState × List SchedCmd :=
  let curA := !gpioA
  let (s1, c1) :=
    if curA && !s.prevA then
      if s.ledSusp then
        ({ s with ledSusp := false }, [SchedCmd.resumeCmd ledH])
      else
        ({ s with ledSusp := true }, [SchedCmd.suspendCmd ledH])
    else (s, ([] : List SchedCmd))
  let s2 := { s1 with prevA := curA }
  let curB := !gpioB
  let (s3, c2) :=
    if curB && !s2.prevB then
      if s2.buzzSusp then
        ({ s2 with buzzSusp := false }, [SchedCmd.resumeCmd buzzH])
      else
        ({ s2 with buzzSusp := true }, [SchedCmd.suspendCmd buzzH])
    else (s2, ([] : List SchedCmd))
  let s4 := { s3 with prevB := curB }
  (s4, c1 ++ c2)

/-- A task's scheduler run-state as affected by suspend/resume. -/
inductive RunSt where
  | running
  | suspended
deriving DecidableEq, Repr, Fintype

/-- Handle values the registry holds after `xTaskCreate` in `main`:
the LED task is handle 0 and the buzzer task is handle 1. -/
def ledHandle : Option Nat := some 0
def buzzHandle : Option Nat := some 1

/-- Effect of one scheduler call on the (LED, buzzer) run-states:
`vTaskSuspend`/`vTaskResume` on a valid handle moves that task to
Suspended/Running.  Calls on any other handle value are outside this
state (FreeRTOS would suspend the caller or assert on NULL) and leave
the pair unchanged here. -/
def applyCmd (st : RunSt × RunSt) (c : SchedCmd) : RunSt × RunSt :=
  match c with
  | SchedCmd.suspendCmd (some 0) => (RunSt.suspended, st.2)
  | SchedCmd.resumeCmd (some 0) => (RunSt.running, st.2)
  | SchedCmd.suspendCmd (some 1) => (st.1, RunSt.suspended)
  | SchedCmd.resumeCmd (some 1) => (st.1, RunSt.running)
  | _ => st

/-- Combined state: `button_task`'s locals plus the scheduler run-state
of the LED and buzzer tasks. -/
structure SysState where
  btn : ButtonState
  ledRun : RunSt
  buzzRun : RunSt
deriving DecidableEq, Repr, Fintype

/-- System state when the scheduler starts: `button_task` locals fresh,
both monitored tasks created Running. -/
def sysInit : SysState :=
  { btn := buttonInit, ledRun := RunSt.running, buzzRun := RunSt.running }

/-- One 100 ms poll of `button_task` together with the scheduler's
response to the calls it issues (handles as created by `main`). -/
def sysStep (s : SysState) (gpioA gpioB : Bool) : SysState :=
  let (b, cs) := buttonPoll ledHandle buzzHandle s.btn gpioA gpioB
  let st := cs.foldl applyCmd (s.ledRun, s.buzzRun)
  { btn := b, ledRun := st.1, buzzRun := st.2 }

/-- Run `button_task` over a list of (gpioA, gpioB) samples, one poll
per list element. -/
def sysRun (s : SysState) : List (Bool × Bool) → SysState
  | [] => s
  | (ga, gb) :: rest => sysRun (sysStep s ga gb) rest

/-- GPIO sample list for pressing button A twice (press, release, press)
while button B stays unpressed (its line held high by the pull-up). -/
def doublePressA : List (Bool × Bool) :=
  [(false, true), (true, true), (false, true)]

/-- Bool view of a run-state being Suspended. -/
def isSusp : RunSt → Bool
  | RunSt.suspended => true
  | RunSt.running => false

/-- The implicit invariant of `button_task`: its local flags agree with
the actual scheduler run-state of the two monitored tasks. -/
def Consistent (s : SysState) : Prop :=
  s.btn.ledSusp = isSusp s.ledRun ∧ s.btn.buzzSusp = isSusp s.buzzRun

instance (s : SysState) : Decidable (Consistent s) := by
  unfold Consistent; infer_instance

/-- Number of steps at which the LED task's run-state changes, over a
sample list. -/
def ledToggles (s : SysState) : List (Bool × Bool) → Nat
  | [] => 0
  | (ga, gb) :: rest =>
    let s1 := sysStep s ga gb
    (if s1.ledRun = s.ledRun then 0 else 1) + ledToggles s1 rest

/-- Number of steps at which the buzzer task's run-state changes. -/
def buzzToggles (s : SysState) : List (Bool × Bool) → Nat
  | [] => 0
  | (ga, gb) :: rest =>
    let s1 := sysStep s ga gb
    (if s1.buzzRun = s.buzzRun then 0 else 1) + buzzToggles s1 rest

/-- Number of rising edges (pressed now, not pressed before) in a list
of raw GPIO samples, given the previous pressed-state; pressed = !gpio
(active-low wiring). -/
def risingEdges (prev : Bool) : List Bool → Nat
  | [] => 0
  | g :: gs => (if !g && !prev then 1 else 0) + risingEdges (!g) gs

/- ============================================================
   Status (OLED) task: `oled_task`, src/main.c lines 335-401.

   First a wait loop: while either global handle is NULL, delay
   10 ms.  Then forever: set `led_state` from `eTaskGetState` if
   `xLedTaskHandle != NULL` else `eInvalid` (same for the buzzer),
   then `ssd1306_clear`, draw the LED line at (0,0), draw the
   buzzer line at (0,10), `ssd1306_show`, delay 250 ms.
   ============================================================ -/

/-- FreeRTOS `eTaskState`. -/
inductive ETaskState where
  | eRunning
  | eReady
  | eBlocked
  | eSuspended
  | eDeleted
  | eInvalid
deriving DecidableEq, Repr

/-- The environment `oled_task` observes during one iteration: the two
global handles and the value `eTaskGetState` would return for each
monitored task at that moment. -/
structure OledWorld where
  ledH : Option Nat
  buzzH : Option Nat
  ledQ : ETaskState
  buzzQ : ETaskState
deriving DecidableEq, Repr

/-- An effect issued by `oled_task`, in program order: an
`eTaskGetState(handle)` call, a display-driver call, or `vTaskDelay`. -/
inductive OledEvent where
  | queryEv (h : Nat)
  | clearEv
  | drawEv (x y : Nat) (text : String)
  | showEv
  | delayEv (ms : Nat)
deriving DecidableEq, Repr

/-- The `led_state` variable after the handle check at src/main.c lines
354-361: the query result when the handle is non-NULL, `eInvalid`
otherwise. -/
def ledObserved (w : OledWorld) : ETaskState :=
  match w.ledH with
  | some _ => w.ledQ
  | none => ETaskState.eInvalid

/-- The `buzzer_state` variable after the handle check (lines 364-371). -/
def buzzObserved (w : OledWorld) : ETaskState :=
  match w.buzzH with
  | some _ => w.buzzQ
  | none => ETaskState.eInvalid

/-- `eTaskGetState` calls made for the LED task in one iteration: one
call when the handle is non-NULL, none otherwise. -/
def ledQueries (w : OledWorld) : List OledEvent :=
  match w.ledH with
  | some h => [OledEvent.queryEv h]
  | none => []

/-- `eTaskGetState` calls made for the buzzer task in one iteration. -/
def buzzQueries (w : OledWorld) : List OledEvent :=
  match w.buzzH with
  | some h => [OledEvent.queryEv h]
  | none => []

/-- `led_status_str` as formatted at src/main.c lines 376-383. -/
def ledLabel (st : ETaskState) : String :=
  if st ≠ ETaskState.eInvalid then
    "Task LED: " ++ (if st = ETaskState.eSuspended then "Suspended" else "Run")
  else
    "LED: Handle Nulo"

/-- `buzzer_status_str` as formatted at src/main.c lines 387-394. -/
def buzzLabel (st : ETaskState) : String :=
  if st ≠ ETaskState.eInvalid then
    "Task Buzz: " ++ (if st = ETaskState.eSuspended then "Suspended" else "Run")
  else
    "Buzzer: Handle Nulo"

/-- One iteration of `oled_task`'s `while (true)` reporting loop
(src/main.c lines 351-400), as the list of effects in program order. -/
def renderCycle (w : OledWorld) : List OledEvent :=
  ledQueries w ++ buzzQueries w ++
    [OledEvent.clearEv,
     OledEvent.drawEv 0 0 (ledLabel (ledObserved w)),
     OledEvent.drawEv 0 10 (buzzLabel (buzzObserved w)),
     OledEvent.showEv,
     OledEvent.delayEv 250]

/-- The display-driver calls in a list of effects (queries and delays
removed). -/
def displayCalls (evs : List OledEvent) : List OledEvent :=
  evs.filter fun e =>
    match e with
    | OledEvent.queryEv _ => false
    | OledEvent.delayEv _ => false
    | _ => true

/-- `oled_task`'s control position: still in the startup wait loop
(lines 344-347), or in the reporting loop (lines 351-400). -/
inductive OledPhase where
  | waiting
  | reporting
deriving DecidableEq, Repr

/-- One scheduling step of `oled_task` in the given environment:
in the wait loop, if either handle is NULL it delays 10 ms and stays
waiting, else it falls through into the reporting loop and runs one
iteration; in the reporting loop it runs one iteration. -/
def oledStep (w : OledWorld) : OledPhase → OledPhase × List OledEvent
  | OledPhase.waiting =>
    if w.ledH = none ∨ w.buzzH = none then
      (OledPhase.waiting, [OledEvent.delayEv 10])
    else
      (OledPhase.reporting, renderCycle w)
  | OledPhase.reporting => (OledPhase.reporting, renderCycle w)

/-- `oled_task`'s phase after `t` steps against the environment
history `ws` (the task starts in the wait loop). -/
def oledPhaseAt (ws : Nat → OledWorld) : Nat → OledPhase
  | 0 => OledPhase.waiting
  | t + 1 => (oledStep (ws t) (oledPhaseAt ws t)).1

/-- The effects `oled_task` issues during step `t`. -/
def oledEventsAt (ws : Nat → OledWorld) (t : Nat) : List OledEvent :=
  (oledStep (ws t) (oledPhaseAt ws t)).2

/-- The write-once discipline of the handle registry: `xLedTaskHandle`
and `xBuzzerTaskHandle` are written only by `xTaskCreate` in `main`
(src/main.c lines 83-86), so once non-NULL they stay non-NULL. -/
def HandlesWriteOnce (ws : Nat → OledWorld) : Prop :=
  ∀ t, ((ws t).ledH.isSome = true → (ws (t + 1)).ledH.isSome = true) ∧
    ((ws t).buzzH.isSome = true → (ws (t + 1)).buzzH.isSome = true)

/-- Environment history in which both handles are always NULL. -/
def worldsAllNull : Nat → OledWorld :=
  fun _ => { ledH := none, buzzH := none, ledQ := ETaskState.eRunning,
             buzzQ := ETaskState.eRunning }

/-- Environment history after `main` created every task: handles 0 and
1 are registered and both monitored tasks are in the Running state. -/
def worldsBothValid : Nat → OledWorld :=
  fun _ => { ledH := some 0, buzzH := some 1, ledQ := ETaskState.eRunning,
             buzzQ := ETaskState.eRunning }

/-- The environment of spec scenario 3: both handles valid, the LED task
Suspended, the buzzer task Running. -/
def scenario3World : OledWorld :=
  { ledH := some 0, buzzH := some 1, ledQ := ETaskState.eSuspended,
    buzzQ := ETaskState.eRunning }

/- ============================================================
   Helper lemmas
   ============================================================ -/

/-- Per-poll facts about `button_task` from a consistent state: the
invariant is preserved, each previous-level variable is updated to the
current pressed level, and each monitored task's run-state changes in
this poll exactly when the corresponding button shows a rising edge. -/
lemma sysStep_facts : ∀ (s : SysState) (ga gb : Bool), Consistent s →
    Consistent (sysStep s ga gb) ∧
    (sysStep s ga gb).btn.prevA = !ga ∧
    (sysStep s ga gb).btn.prevB = !gb ∧
    ((if (sysStep s ga gb).ledRun = s.ledRun then 0 else 1) =
      (if !ga && !s.btn.prevA then 1 else 0)) ∧
    ((if (sysStep s ga gb).buzzRun = s.buzzRun then 0 else 1) =
      (if !gb && !s.btn.prevB then 1 else 0)) := by decide

/-- Consistency of the flags with the run-states is preserved along any
run of `button_task`. -/
lemma sysRun_consistent : ∀ (ins : List (Bool × Bool)) (s : SysState),
    Consistent s → Consistent (sysRun s ins) := by
  intro ins
  induction ins with
  | nil => intro s hs; exact hs
  | cons p rest ih =>
    intro s hs
    obtain ⟨ga, gb⟩ := p
    exact ih (sysStep s ga gb) (sysStep_facts s ga gb hs).1

/-- One step of `led_task` from the canonical single-channel state. -/
lemma ledStep_onlyChannel : ∀ m : Nat, m < 3 →
    ledStep { current_color_index := m, pins := onlyChannel m } =
      { current_color_index := (m + 1) % 3, pins := onlyChannel ((m + 1) % 3) } := by
  intro m hm
  interval_cases m <;> rfl

/-- Closed form for `led_task` after at least one iteration: the index
is `k % 3` and exactly that channel is lit. -/
lemma ledIter_closed : ∀ k : Nat,
    ledIter (k + 1) =
      { current_color_index := (k + 1) % 3, pins := onlyChannel ((k + 1) % 3) } := by
  intro k
  induction k with
  | zero => rfl
  | succ n ih =>
    have hlt : (n + 1) % 3 < 3 := Nat.mod_lt _ (by norm_num)
    have h1 : ledIter (n + 2) = ledStep (ledIter (n + 1)) :=
      Function.iterate_succ_apply' ledStep (n + 1) ledInit
    rw [h1, ih, ledStep_onlyChannel _ hlt]
    have h2 : ((n + 1) % 3 + 1) % 3 = (n + 2) % 3 := by omega
    rw [h2]

/-- Channel counting for the canonical single-channel pin vector. -/
lemma onlyChannel_count : ∀ m : Nat, m < 3 → (onlyChannel m).count true = 1 := by
  intro m hm
  interval_cases m <;> rfl

/- ============================================================
   Claim theorems
   ============================================================ -/

/-- Claim C1: over every sequence of sampled button levels, starting
from any state whose flags agree with the run-states (as at scheduler
start), `button_task` changes the LED task's run-state exactly once per
rising edge of button A and the buzzer task's run-state exactly once
per rising edge of button B — hence zero times on falling edges or
sustained levels, each button acting only on its own task. -/
theorem toggles_eq_rising_edges : ∀ (ins : List (Bool × Bool)) (s : SysState),
    Consistent s →
    ledToggles s ins = risingEdges s.btn.prevA (ins.map Prod.fst) ∧
    buzzToggles s ins = risingEdges s.btn.prevB (ins.map Prod.snd) := by
  intro ins
  induction ins with
  | nil => intro s _; exact ⟨rfl, rfl⟩
  | cons p rest ih =>
    intro s hs
    obtain ⟨ga, gb⟩ := p
    obtain ⟨hc, hpa, hpb, hta, htb⟩ := sysStep_facts s ga gb hs
    obtain ⟨ihl, ihb⟩ := ih (sysStep s ga gb) hc
    constructor
    · show (if (sysStep s ga gb).ledRun = s.ledRun then 0 else 1) +
        ledToggles (sysStep s ga gb) rest = _
      rw [hta, ihl, hpa]
      rfl
    · show (if (sysStep s ga gb).buzzRun = s.buzzRun then 0 else 1) +
        buzzToggles (sysStep s ga gb) rest = _
      rw [htb, ihb, hpb]
      rfl

/-- Witness for C1: three polls from the initial state — button A held
pressed for the last two samples, button B pressed once — yield one LED
toggle (one rising edge) and one buzzer toggle. -/
theorem toggles_eq_rising_edges_witness :
    ledToggles sysInit [(true, false), (false, true), (false, true)] =
      risingEdges sysInit.btn.prevA
        ([(true, false), (false, true), (false, true)].map Prod.fst) ∧
    buzzToggles sysInit [(true, false), (false, true), (false, true)] =
      risingEdges sysInit.btn.prevB
        ([(true, false), (false, true), (false, true)].map Prod.snd) :=
  toggles_eq_rising_edges [(true, false), (false, true), (false, true)] sysInit
    (by decide)

/-- Claim C2 (code behavior at the failing input): with
`xLedTaskHandle == NULL` and a rising edge on button A (previous sample
not pressed, current GPIO sample low), `button_task` does NOT skip the
toggle: it still issues `vTaskSuspend` on the NULL handle and sets its
flag, instead of the defensive no-op the spec requires. -/
theorem button_null_handle_not_skipped :
    (buttonPoll none buzzHandle buttonInit false true).2 =
      [SchedCmd.suspendCmd none] ∧
    (buttonPoll none buzzHandle buttonInit false true).2 ≠ [] ∧
    (buttonPoll none buzzHandle buttonInit false true).1.ledSusp = true := by
  decide

/-- Claim C7: from any state with consistent flags and button A's
previous level not pressed, pressing button A twice (press, release,
press; button B idle) returns the LED task's run-state and the
`led_task_suspended` flag to their original values, leaving the buzzer
task's run-state untouched. -/
theorem double_press_round_trip : ∀ s : SysState,
    Consistent s → s.btn.prevA = false →
    (sysRun s doublePressA).ledRun = s.ledRun ∧
    (sysRun s doublePressA).btn.ledSusp = s.btn.ledSusp ∧
    (sysRun s doublePressA).buzzRun = s.buzzRun := by decide

/-- Witness for C7: the round trip evaluated from the initial state. -/
theorem double_press_round_trip_witness :
    (sysRun sysInit doublePressA).ledRun = sysInit.ledRun ∧
    (sysRun sysInit doublePressA).btn.ledSusp = sysInit.btn.ledSusp ∧
    (sysRun sysInit doublePressA).buzzRun = sysInit.buzzRun :=
  double_press_round_trip sysInit (by decide) rfl

/-- Claim C9: along every run of `button_task` from scheduler start
(flags false, both tasks Running), the local flags
`led_task_suspended` / `buzzer_task_suspended` equal the actual
run-state of the corresponding task, so the flag-based toggle decision
coincides with querying the current run-state. -/
theorem flags_track_run_state : ∀ ins : List (Bool × Bool),
    Consistent (sysRun sysInit ins) :=
  fun ins => sysRun_consistent ins sysInit (by decide)

/-- Claim C8: `main` creates the Control (button) task at priority 2,
strictly above the LED, buzzer and OLED tasks, which all share
priority 1. -/
theorem control_task_highest_priority :
    ledTaskSpec.priority < buttonTaskSpec.priority ∧
    buzzerTaskSpec.priority < buttonTaskSpec.priority ∧
    oledTaskSpec.priority < buttonTaskSpec.priority ∧
    ledTaskSpec.priority = buzzerTaskSpec.priority ∧
    buzzerTaskSpec.priority = oledTaskSpec.priority ∧
    (otherTaskSpecs.all fun ts =>
      decide (ts.priority < buttonTaskSpec.priority)) = true := by decide

/-- Claim C6: one buzzer cycle is 100 ms at level 2048 followed by
900 ms at level 0, a 1000 ms period; 1200 ms after entering their
loops the buzzer has completed exactly 1 full on/off cycle and the LED
task exactly 2 of its 500 ms periods. -/
theorem buzzer_cycle_timing :
    buzzerPhases = [(2048, 100), (0, 900)] ∧
    buzzerPeriodMs = 1000 ∧
    (∀ t : Nat, buzzerLevelAt t =
      if t % 1000 < BUZZER_ON_MS then BUZZER_ACTIVE_LEVEL else 0) ∧
    buzzerCompletedCycles 1200 = 1 ∧
    ledStepsCompleted 1200 = 2 := by
  refine ⟨rfl, rfl, ?_, rfl, rfl⟩
  intro t
  show phaseLevelAt buzzerPhases (t % buzzerPeriodMs) = _
  show (if t % 1000 < 100 then 2048
    else if t % 1000 - 100 < 900 then 0
    else phaseLevelAt [] (t % 1000 - 100 - 900)) = _
  by_cases h : t % 1000 < 100
  · simp [h, BUZZER_ON_MS, BUZZER_ACTIVE_LEVEL]
  · simp [h, BUZZER_ON_MS, phaseLevelAt]

/-- Claim C4: `led_task` starts with every channel off; after each
iteration the index has advanced by exactly one modulo NUM_COLORS = 3
(fixed cyclic order, no skips, no repeats within a cycle), the index
equals the iteration count mod 3 and stays in [0, 3), and exactly the
channel at the index is lit — so at most one channel is ever active. -/
theorem led_cycle_invariants : ∀ k : Nat,
    (ledIter k).current_color_index = k % 3 ∧
    (ledIter k).current_color_index < NUM_COLORS ∧
    (ledIter (k + 1)).current_color_index =
      ((ledIter k).current_color_index + 1) % NUM_COLORS ∧
    (ledIter (k + 1)).pins = onlyChannel ((k + 1) % 3) ∧
    activeCount (ledIter (k + 1)) = 1 ∧
    activeCount ledInit = 0 ∧
    activeCount (ledIter k) ≤ 1 := by
  intro k
  have hidx : ∀ n : Nat, (ledIter n).current_color_index = n % 3 := by
    intro n
    cases n with
    | zero => rfl
    | succ m => rw [ledIter_closed m]
  have hpins : (ledIter (k + 1)).pins = onlyChannel ((k + 1) % 3) := by
    rw [ledIter_closed k]
  have hcount : activeCount (ledIter (k + 1)) = 1 := by
    show (ledIter (k + 1)).pins.count true = 1
    rw [hpins]
    exact onlyChannel_count _ (Nat.mod_lt _ (by norm_num))
  refine ⟨hidx k, ?_, ?_, hpins, hcount, rfl, ?_⟩
  · rw [hidx k]
    show k % 3 < 3
    exact Nat.mod_lt _ (by norm_num)
  · rw [hidx k, hidx (k + 1)]
    show (k + 1) % 3 = (k % 3 + 1) % 3
    omega
  · cases k with
    | zero => decide
    | succ m =>
      have : activeCount (ledIter (m + 1)) = 1 := by
        show (ledIter (m + 1)).pins.count true = 1
        rw [ledIter_closed m]
        exact onlyChannel_count _ (Nat.mod_lt _ (by norm_num))
      omega

/-- Claim C5: each reporting iteration of `oled_task` issues its
display calls in the exact order clear, draw line 0 (LED status at
(0,0)), draw line 1 (buzzer status at (0,10)), show — a full redraw
every cycle — with the run-state-to-label map Running → "Run",
Suspended → "Suspended", invalid handle → "Handle Nulo"; in the
scenario where the LED task is Suspended and the buzzer task Running,
line 0 ends in "Suspended" and line 1 ends in "Run". -/
theorem status_render_labels_and_order :
    (∀ w : OledWorld, displayCalls (renderCycle w) =
      [OledEvent.clearEv,
       OledEvent.drawEv 0 0 (ledLabel (ledObserved w)),
       OledEvent.drawEv 0 10 (buzzLabel (buzzObserved w)),
       OledEvent.showEv]) ∧
    ledLabel ETaskState.eRunning = "Task LED: Run" ∧
    ledLabel ETaskState.eSuspended = "Task LED: Suspended" ∧
    ledLabel ETaskState.eInvalid = "LED: Handle Nulo" ∧
    buzzLabel ETaskState.eRunning = "Task Buzz: Run" ∧
    buzzLabel ETaskState.eSuspended = "Task Buzz: Suspended" ∧
    buzzLabel ETaskState.eInvalid = "Buzzer: Handle Nulo" ∧
    "Suspended".data <:+ (ledLabel (ledObserved scenario3World)).data ∧
    "Run".data <:+ (buzzLabel (buzzObserved scenario3World)).data := by
  refine ⟨?_, by decide, by decide, by decide, by decide, by decide, by decide,
    by decide, by decide⟩
  intro w
  rcases w with ⟨(_ | h1), (_ | h2), q1, q2⟩ <;> rfl

/-- Claim C3: while `oled_task` is in its startup wait loop and either
monitored handle is still NULL, a step issues only a 10 ms delay — no
`eTaskGetState` query, no display call — and the task stays in the wait
loop; and the reporting loop can only be entered from a step at which
both handles were non-NULL (or was already entered before). -/
theorem status_waits_for_handles :
    (∀ (ws : Nat → OledWorld) (t : Nat),
      oledPhaseAt ws t = OledPhase.waiting →
      ((ws t).ledH = none ∨ (ws t).buzzH = none) →
      oledEventsAt ws t = [OledEvent.delayEv 10] ∧
      oledPhaseAt ws (t + 1) = OledPhase.waiting) ∧
    (∀ (ws : Nat → OledWorld) (t : Nat),
      oledPhaseAt ws (t + 1) = OledPhase.reporting →
      oledPhaseAt ws t = OledPhase.reporting ∨
      ((ws t).ledH ≠ none ∧ (ws t).buzzH ≠ none ∧
        oledEventsAt ws t = renderCycle (ws t))) := by
  constructor
  · intro ws t hp hn
    constructor
    · show (oledStep (ws t) (oledPhaseAt ws t)).2 = _
      rw [hp]
      simp [oledStep, hn]
    · show (oledStep (ws t) (oledPhaseAt ws t)).1 = _
      rw [hp]
      simp [oledStep, hn]
  · intro ws t hp
    cases hph : oledPhaseAt ws t with
    | reporting => exact Or.inl rfl
    | waiting =>
      have hstep : oledPhaseAt ws (t + 1) =
          (oledStep (ws t) (oledPhaseAt ws t)).1 := rfl
      rw [hstep, hph] at hp
      by_cases hn : (ws t).ledH = none ∨ (ws t).buzzH = none
      · simp [oledStep, hn] at hp
      · push_neg at hn
        refine Or.inr ⟨hn.1, hn.2, ?_⟩
        show (oledStep (ws t) (oledPhaseAt ws t)).2 = _
        rw [hph]
        simp [oledStep, hn.1, hn.2]

/-- Witness for C3: against an environment where both handles stay
NULL, step 0 of `oled_task` issues only the 10 ms delay and the task
is still in the wait loop at step 1. -/
theorem status_waits_for_handles_witness :
    oledEventsAt worldsAllNull 0 = [OledEvent.delayEv 10] ∧
    oledPhaseAt worldsAllNull 1 = OledPhase.waiting :=
  status_waits_for_handles.1 worldsAllNull 0 rfl (Or.inl rfl)

/-- Under the write-once handle discipline, once `oled_task` is in its
reporting loop both handles are non-NULL at every step. -/
lemma reporting_handles_some (ws : Nat → OledWorld) (hw : HandlesWriteOnce ws) :
    ∀ t, oledPhaseAt ws t = OledPhase.reporting →
      (ws t).ledH.isSome = true ∧ (ws t).buzzH.isSome = true := by
  intro t
  induction t with
  | zero => intro h; exact absurd h (by simp [oledPhaseAt])
  | succ n ih =>
    intro h
    have hstep : oledPhaseAt ws (n + 1) =
        (oledStep (ws n) (oledPhaseAt ws n)).1 := rfl
    cases hph : oledPhaseAt ws n with
    | reporting =>
      obtain ⟨h1, h2⟩ := ih hph
      exact ⟨(hw n).1 h1, (hw n).2 h2⟩
    | waiting =>
      rw [hstep, hph] at h
      by_cases hn : (ws n).ledH = none ∨ (ws n).buzzH = none
      · simp [oledStep, hn] at h
      · push_neg at hn
        have h1 : (ws n).ledH.isSome = true :=
          Option.isSome_iff_ne_none.mpr hn.1
        have h2 : (ws n).buzzH.isSome = true :=
          Option.isSome_iff_ne_none.mpr hn.2
        exact ⟨(hw n).1 h1, (hw n).2 h2⟩

/-- For a non-eInvalid state the LED label is never the NULL-handle
label. -/
lemma ledLabel_ne_null : ∀ st : ETaskState, st ≠ ETaskState.eInvalid →
    ledLabel st ≠ "LED: Handle Nulo" := by
  intro st hst
  cases st <;> first | decide | exact absurd rfl hst

/-- For a non-eInvalid state the buzzer label is never the NULL-handle
label. -/
lemma buzzLabel_ne_null : ∀ st : ETaskState, st ≠ ETaskState.eInvalid →
    buzzLabel st ≠ "Buzzer: Handle Nulo" := by
  intro st hst
  cases st <;> first | decide | exact absurd rfl hst

/-- Claim C10: the handles are written once (by `xTaskCreate` before
the scheduler starts) and never revert to NULL; therefore, on any
environment history obeying that discipline (and with `eTaskGetState`
never returning `eInvalid` for a valid handle), once `oled_task` has
left its wait loop every subsequent iteration takes the query branch
for both tasks: the `eInvalid` assignments and the "Handle Nulo"
labels are unreachable, and the task stays in the reporting loop. -/
theorem null_branches_unreachable :
    ∀ ws : Nat → OledWorld, HandlesWriteOnce ws →
    (∀ t, (ws t).ledQ ≠ ETaskState.eInvalid ∧
      (ws t).buzzQ ≠ ETaskState.eInvalid) →
    ∀ t, oledPhaseAt ws t = OledPhase.reporting →
      (ws t).ledH.isSome = true ∧ (ws t).buzzH.isSome = true ∧
      ledObserved (ws t) = (ws t).ledQ ∧
      buzzObserved (ws t) = (ws t).buzzQ ∧
      ledQueries (ws t) ≠ [] ∧ buzzQueries (ws t) ≠ [] ∧
      oledEventsAt ws t = renderCycle (ws t) ∧
      ledLabel (ledObserved (ws t)) ≠ "LED: Handle Nulo" ∧
      buzzLabel (buzzObserved (ws t)) ≠ "Buzzer: Handle Nulo" ∧
      oledPhaseAt ws (t + 1) = OledPhase.reporting := by
  intro ws hw hq t ht
  obtain ⟨h1, h2⟩ := reporting_handles_some ws hw t ht
  obtain ⟨a1, ha1⟩ := Option.isSome_iff_exists.mp h1
  obtain ⟨a2, ha2⟩ := Option.isSome_iff_exists.mp h2
  have hobs1 : ledObserved (ws t) = (ws t).ledQ := by
    unfold ledObserved; rw [ha1]
  have hobs2 : buzzObserved (ws t) = (ws t).buzzQ := by
    unfold buzzObserved; rw [ha2]
  refine ⟨h1, h2, hobs1, hobs2, ?_, ?_, ?_, ?_, ?_, ?_⟩
  · unfold ledQueries; rw [ha1]; simp
  · unfold buzzQueries; rw [ha2]; simp
  · show (oledStep (ws t) (oledPhaseAt ws t)).2 = _
    rw [ht]
    rfl
  · rw [hobs1]; exact ledLabel_ne_null _ (hq t).1
  · rw [hobs2]; exact buzzLabel_ne_null _ (hq t).2
  · show (oledStep (ws t) (oledPhaseAt ws t)).1 = _
    rw [ht]
    rfl

/-- Witness for C10: with both handles registered from the start,
`oled_task` is reporting at step 1 and that step queries both tasks,
renders a full cycle and shows no "Handle Nulo" label. -/
theorem null_branches_unreachable_witness :
    (worldsBothValid 1).ledH.isSome = true ∧
    (worldsBothValid 1).buzzH.isSome = true ∧
    ledObserved (worldsBothValid 1) = (worldsBothValid 1).ledQ ∧
    buzzObserved (worldsBothValid 1) = (worldsBothValid 1).buzzQ ∧
    ledQueries (worldsBothValid 1) ≠ [] ∧
    buzzQueries (worldsBothValid 1) ≠ [] ∧
    oledEventsAt worldsBothValid 1 = renderCycle (worldsBothValid 1) ∧
    ledLabel (ledObserved (worldsBothValid 1)) ≠ "LED: Handle Nulo" ∧
    buzzLabel (buzzObserved (worldsBothValid 1)) ≠ "Buzzer: Handle Nulo" ∧
    oledPhaseAt worldsBothValid 2 = OledPhase.reporting :=
  null_branches_unreachable worldsBothValid
    (fun _ => ⟨fun _ => rfl, fun _ => rfl⟩)
    (fun _ => ⟨(fun hcon => nomatch hcon), (fun hcon => nomatch hcon)⟩)
    1 (by decide)

end FreeRtosTasks
